import Mathlib

/-!
Shallow embedding of `src/bot.py` (patreon-gate-bot).

The program is a Telegram bot that gates access to a private group behind a
one-time email submission.  A conversation collects an email address in a
private chat, validates it against a regular expression, checks a
deduplication constraint against a Google Sheet (one row per admitted user),
requests a single-use time-limited invite link, appends a submission row,
and replies with the link.

Modelling conventions:
* The worksheet is `Sheet := List (List String)`: the list of rows that hold
  content, in order.  `row_values n` and `col_values idx` mirror the gspread
  1-based accessors.  the gspread `col_values` truncates trailing empty cells
  and `row_values` returns `[]` for an empty row; the model returns `""` for
  cells beyond the length of a row and does not truncate, which leaves membership
  tests for the nonempty numeric id strings used by the program unchanged.
* `append_row` appends at the end of the content region.
* Telegram/Google I/O is replaced by explicit parameters: the outcome of the
  invite-creation call is an `Except PyErr String` argument, wall-clock
  readings are `Nat` epoch-second arguments (`int(...timestamp())` of
  `datetime.now(timezone.utc) + timedelta(minutes=m)` equals the floored
  current epoch plus `60 * m`, since `60 * m` is an integer number of
  seconds), and the second-precision UTC ISO timestamp produced by
  `datetime.now(timezone.utc).isoformat(timespec="seconds")` is a `String`
  argument.
* The Python `re.IGNORECASE` character classes are modelled over ASCII
  alphanumerics, matching the characters the classes name; exotic Unicode
  case-folding pairs are outside the model.  The Python `$` also matches just
  before one trailing newline, which the matcher reproduces.
* `ConversationHandler` states are `Int`s exactly as in python-telegram-bot:
  `ASK_EMAIL = 1` and `ConversationHandler.END = -1`.
-/

namespace PatreonGate

/-- Characters removed by Python `str.strip()` with no argument: the ASCII
whitespace family plus the Latin-1 spaces.  (Further Unicode space code
points such as U+2000 also strip in Python; no behaviour modelled here
depends on them.) -/
def pyIsSpace (c : Char) : Bool :=
  c = ' ' || c = '\t' || c = '\n' || c = '\u000B' || c = '\u000C' || c = '\r' ||
  c = '\u001C' || c = '\u001D' || c = '\u001E' || c = '\u001F' ||
  c = '\u0085' || c = ' '

/-- Python `str.strip()`: drop leading and trailing whitespace. -/
def pyStrip (s : String) : String :=
  ⟨((s.toList.dropWhile pyIsSpace).reverse.dropWhile pyIsSpace).reverse⟩

/-- Character class `[A-Z0-9._%+-]` under `re.IGNORECASE` (the local part of
`EMAIL_RE` at src/bot.py line 25). -/
def localChar (c : Char) : Bool :=
  c.isAlphanum || c = '.' || c = '_' || c = '%' || c = '+' || c = '-'

/-- Character class `[A-Z0-9.-]` under `re.IGNORECASE` (the domain part of
`EMAIL_RE`). -/
def domainChar (c : Char) : Bool :=
  c.isAlphanum || c = '.' || c = '-'

/-- Split a character list at the first at-sign, returning the parts before and
after it. -/
def splitFirstAtSign : List Char → Option (List Char × List Char)
  | [] => none
  | c :: rest =>
    if c = '@' then some ([], rest)
    else
      match splitFirstAtSign rest with
      | some (l, r) => some (c :: l, r)
      | none => none

/-- Split a character list at the first dot. -/
def splitFirstDot : List Char → Option (List Char × List Char)
  | [] => none
  | c :: rest =>
    if c = '.' then some ([], rest)
    else
      match splitFirstDot rest with
      | some (l, r) => some (c :: l, r)
      | none => none

/-- Split a character list at the last dot, returning the parts before and
after it. -/
def splitLastDot (cs : List Char) : Option (List Char × List Char) :=
  match splitFirstDot cs.reverse with
  | some (tRev, dRev) => some (dRev.reverse, tRev.reverse)
  | none => none

/-- Whether `EMAIL_RE = ^[A-Z0-9._%+-]+@[A-Z0-9.-]+\.[A-Z]\x7b2,\x7d$`
(case-insensitive) matches a whole line.  A match decomposes the input as
`lpart ++ "@" ++ d ++ "." ++ tld`: the at-sign is necessarily the first at-sign
(neither class contains it), and since the final label is letters only the
separating dot is necessarily the last dot after the at-sign, so checking
that single decomposition is equivalent to the regex. -/
def emailCore (cs : List Char) : Bool :=
  match splitFirstAtSign cs with
  | none => false
  | some (lpart, rest) =>
    !lpart.isEmpty && lpart.all localChar &&
    match splitLastDot rest with
    | none => false
    | some (d, tld) =>
      !d.isEmpty && d.all domainChar && decide (2 ≤ tld.length) && tld.all Char.isAlpha

/-- `EMAIL_RE.match(s)` is truthy.  The Python `$` (without `re.MULTILINE`)
matches at the end of the string or just before a single trailing newline. -/
def EMAIL_RE_match (s : String) : Bool :=
  emailCore s.toList ||
  (match s.toList.getLast? with
   | some c => c = '\n' && emailCore s.toList.dropLast
   | none => false)

/-- One worksheet: the ordered rows holding content. -/
abbrev Sheet := List (List String)

/-- `HEADER` (src/bot.py lines 39-46). -/
def HEADER : List String :=
  ["timestamp_utc", "telegram_user_id", "telegram_username",
   "telegram_full_name", "patreon_email", "invite_link_created"]

/-- gspread `ws.row_values(n)` (1-based); `[]` when the row is absent. -/
def row_values (ws : Sheet) (n : Nat) : List String :=
  ws.getD (n - 1) []

/-- gspread `ws.col_values(idx)` (1-based); `""` for cells beyond the length
of a row. -/
def col_values (ws : Sheet) (idx : Nat) : List String :=
  ws.map (fun r => r.getD (idx - 1) "")

/-- `get_ws` (src/bot.py lines 54-66) as a state transformation of the sheet:
the credential and open steps do not change the table; if the first row is
empty (`if not first_row`) the fixed header is appended. -/
def get_ws (s : Sheet) : Sheet :=
  if row_values s 1 = [] then s ++ [HEADER] else s

/-- `user_already_submitted` (src/bot.py lines 69-79): resolve the column
index from the header (`headers.index("telegram_user_id") + 1`, falling back
to column 2 when `list.index` raises `ValueError`), then test membership of
`str(telegram_user_id)` in `set(col[1:])` — equivalently in the list
`col[1:]`. -/
def user_already_submitted (ws : Sheet) (telegram_user_id : Nat) : Bool :=
  let headers := row_values ws 1
  let col_idx :=
    match headers.findIdx? (fun h => h = "telegram_user_id") with
    | some i => i + 1
    | none => 2
  ((col_values ws col_idx).drop 1).elem (toString telegram_user_id)

/-- Column resolution exactly as the specification words it: look up
`"telegram_user_id"` in the header row; if that name is absent fall back to
the fixed positional column 2 (1-based). -/
def dedupColumnIndex (headerRow : List String) : Nat :=
  match headerRow.findIdx? (fun h => h = "telegram_user_id") with
  | some i => i + 1
  | none => 2

/-- The dedup check as the specification words it (refinement target for the
code-level `user_already_submitted`): membership of the id of the current user
rendered as a string in the set of the values of the resolved column excluding the
header row. -/
def dedupSpec (s : Sheet) (uid : Nat) : Bool :=
  let idx := dedupColumnIndex (s.headD [])
  decide (toString uid ∈ ((s.map fun r => r.getD (idx - 1) "").drop 1))

/-- A Telegram user as `handle_email` consumes it: `user.id` is the numeric
id (positive for Telegram user accounts, so `str(user.id)` is `toString` of a
`Nat`), and the optional display fields may be absent. -/
structure TgUser where
  id : Nat
  username : Option String
  first_name : Option String
  last_name : Option String
deriving DecidableEq

/-- `full_name` as computed in `append_submission` (src/bot.py line 83):
`" ".join([x for x in [user.first_name, user.last_name] if x]) or ""`.
The comprehension keeps the parts that are present and nonempty; the
trailing `or ""` maps a falsy (empty) join result to `""`, a no-op on
strings. -/
def full_name (user : TgUser) : String :=
  " ".intercalate ((([user.first_name, user.last_name].filterMap id).filter
    (fun x => x ≠ "")))

/-- gspread `value_input_option` for `append_row`. -/
inductive ValueInputOption
  | RAW
  | USER_ENTERED
deriving DecidableEq

/-- The submission row built in `append_submission` (src/bot.py lines 84-91);
`nowIso` stands for `datetime.now(timezone.utc).isoformat(timespec="seconds")`
evaluated at append time. -/
def submission_row (user : TgUser) (email invite_link nowIso : String) :
    List String :=
  [nowIso, toString user.id, user.username.getD "", full_name user, email,
   invite_link]

/-- `append_submission` (src/bot.py lines 82-92): append the submission row
with `value_input_option="RAW"`.  Returns the new sheet together with the
input mode used for the append. -/
def append_submission (ws : Sheet) (user : TgUser)
    (email invite_link nowIso : String) : Sheet × ValueInputOption :=
  (ws ++ [submission_row user email invite_link nowIso], ValueInputOption.RAW)

/-- The process configuration after the module-level `os.getenv(...).strip()`
reads (src/bot.py lines 28-36). -/
structure Config where
  BOT_TOKEN : String
  GROUP_CHAT_ID : String
  SHEET_ID : String
  GOOGLE_SERVICE_ACCOUNT_JSON : String
  INVITE_EXPIRE_MINUTES : Nat
deriving DecidableEq

/-- `must_env` (src/bot.py lines 49-51): raise `RuntimeError` when the value
is falsy (the empty string). -/
def must_env (name : String) (value : String) : Except String Unit :=
  if value = "" then Except.error ("Missing env var: " ++ name)
  else Except.ok ()

/-- The startup checks at the head of `main` (src/bot.py lines 166-169),
with `RuntimeError` propagation written as explicit exception sequencing;
the process builds and runs the application only when the result is
`Except.ok`. -/
def mainEnvCheck (c : Config) : Except String Unit :=
  match must_env "BOT_TOKEN" c.BOT_TOKEN with
  | Except.error e => Except.error e
  | Except.ok _ =>
    match must_env "GROUP_CHAT_ID" c.GROUP_CHAT_ID with
    | Except.error e => Except.error e
    | Except.ok _ => must_env "SHEET_ID" c.SHEET_ID

/-- `ASK_EMAIL = 1` (src/bot.py line 23). -/
def ASK_EMAIL : Int := 1

/-- `ConversationHandler.END` in python-telegram-bot is the integer `-1`. -/
def conversationEnd : Int := -1

/-- A raised Python exception as the `except` arm observes it: its class name
(`type(e).__name__`) and its message (`str(e)`). -/
structure PyErr where
  typeName : String
  msg : String
deriving DecidableEq

/-- Decimal digits to a number; `none` unless the list is nonempty and all
digits. -/
def parseDigits (cs : List Char) : Option Nat :=
  if cs.isEmpty then none
  else
    cs.foldl
      (fun acc c =>
        match acc with
        | none => none
        | some n => if c.isDigit then some (10 * n + (c.toNat - 48)) else none)
      (some 0)

/-- Python `int(s)` on the plain decimal forms `"123"` / `"-123"` that a
chat id takes.  (the Python `int()` additionally tolerates surrounding
whitespace, a leading `+` and `_` separators, and raises `ValueError` —
caught by the surrounding `except` arm — on failure; no claim depends on
those tolerances.) -/
def pyIntOfString (s : String) : Option Int :=
  match s.toList with
  | '-' :: rest => (parseDigits rest).map (fun n => -(n : Int))
  | l => (parseDigits l).map (fun n => (n : Int))

/-- The keyword arguments of the `create_chat_invite_link` call
(src/bot.py lines 134-140). `chat_id` records `int(GROUP_CHAT_ID)`. -/
structure InviteRequest where
  chat_id : Option Int
  member_limit : Nat
  expire_date : Nat
  creates_join_request : Bool
  name : String
deriving DecidableEq

/-- Build the invite request: `member_limit=1`,
`expire_date=int((now + timedelta(minutes=INVITE_EXPIRE_MINUTES)).timestamp())`
which equals the floored current epoch plus `60 * INVITE_EXPIRE_MINUTES`,
`creates_join_request=False`, and
`name=f"patreon_gate_\x7btg_user.id\x7d_\x7bint(time.time())\x7d"`. -/
def mkInviteRequest (cfg : Config) (user : TgUser) (expire_ts : Nat)
    (timeTime : Nat) : InviteRequest :=
  { chat_id := pyIntOfString cfg.GROUP_CHAT_ID,
    member_limit := 1,
    expire_date := expire_ts,
    creates_join_request := false,
    name := "patreon_gate_" ++ toString user.id ++ "_" ++ toString timeTime }

/-- Reply text at src/bot.py line 98. -/
def dmOnlyMsg : String := "Please DM me to get access."

/-- Reply text at src/bot.py lines 101-104. -/
def startPrompt : String :=
  "To get access, reply with the email address you use for Patreon.\n\nNote: you can only submit once."

/-- Reply text at src/bot.py lines 114-116. -/
def invalidEmailMsg : String :=
  "That doesn’t look like a valid email. Please try again (example: name@gmail.com)."

/-- Reply text at src/bot.py lines 123-126. -/
def alreadySubmittedMsg : String :=
  "You’ve already submitted your details, so I can’t accept another entry.\nIf you need help, message the admin."

/-- Reply text at src/bot.py lines 143-148: the diagnostic body enumerating
the likely causes, before the raw error is appended. -/
def inviteFailPrefix : String :=
  "I couldn\x27t create an invite link. Common causes:\n• bot is not an admin in the group\n• bot lacks permission to manage invite links\n• GROUP_CHAT_ID is wrong (supergroups often start with -100...)\n\nError: "

/-- The full invite-failure reply, diagnostic body plus
`f"Error: \x7btype(e).__name__\x7d: \x7be\x7d"`. -/
def inviteFailMsg (e : PyErr) : String :=
  inviteFailPrefix ++ e.typeName ++ ": " ++ e.msg

/-- Reply text at src/bot.py lines 154-157: the success reply body, before
the invite link is appended. -/
def successPrefix : String :=
  "Thanks — here’s your one-time join link (single use, expires soon):\n\n"

/-- The full success reply containing the invite link. -/
def successMsg (invite_link : String) : String := successPrefix ++ invite_link

/-- Reply text at src/bot.py line 162. -/
def cancelMsg : String := "Cancelled. You can restart with /start."

/-- Everything one `handle_email` invocation does: the replies sent in order,
the resulting sheet, the invite request sent to Telegram (if the call was
reached), whether the spreadsheet was opened at all, and the returned
conversation state. -/
structure HandleResult where
  replies : List String
  sheet : Sheet
  inviteReq : Option InviteRequest
  sheetOpened : Bool
  appendMode : Option ValueInputOption
  state : Int
deriving DecidableEq

/-- `start` (src/bot.py lines 95-105): replies sent and returned state. -/
def start (chatType : String) : List String × Int :=
  if chatType ≠ "private" then ([dmOnlyMsg], conversationEnd)
  else ([startPrompt], ASK_EMAIL)

/-- `cancel` (src/bot.py lines 161-163). -/
def cancel : List String × Int := ([cancelMsg], conversationEnd)

/-- `handle_email` (src/bot.py lines 108-158).  Parameters replace the
runtime environment: `chatType` is `update.effective_chat.type`, `msgText`
is `update.message.text` (`none` for `None`), `s` is the sheet state before
the call, `nowEpoch` is the floored current epoch second used for the expiry
computation, `timeTime` is `int(time.time())` used in the link name,
`nowIso` is the second-precision UTC ISO timestamp taken at append time, and
`inviteOutcome` is what the awaited `create_chat_invite_link` call does:
`Except.ok link` yields `invite.invite_link`, `Except.error e` is a raised
exception caught by the `except` arm. -/
def handle_email (cfg : Config) (chatType : String) (msgText : Option String)
    (user : TgUser) (s : Sheet) (nowEpoch timeTime : Nat) (nowIso : String)
    (inviteOutcome : Except PyErr String) : HandleResult :=
  if chatType ≠ "private" then
    { replies := [], sheet := s, inviteReq := none, sheetOpened := false,
      appendMode := none, state := conversationEnd }
  else
    let email := pyStrip (msgText.getD "")
    if !(EMAIL_RE_match email) then
      { replies := [invalidEmailMsg], sheet := s, inviteReq := none,
        sheetOpened := false, appendMode := none, state := ASK_EMAIL }
    else
      let ws := get_ws s
      if user_already_submitted ws user.id then
        { replies := [alreadySubmittedMsg], sheet := ws, inviteReq := none,
          sheetOpened := true, appendMode := none, state := conversationEnd }
      else
        let expire_ts := nowEpoch + 60 * cfg.INVITE_EXPIRE_MINUTES
        let req := mkInviteRequest cfg user expire_ts timeTime
        match inviteOutcome with
        | Except.error e =>
          { replies := [inviteFailMsg e], sheet := ws, inviteReq := some req,
            sheetOpened := true, appendMode := none, state := conversationEnd }
        | Except.ok invite_link =>
          let appended := append_submission ws user email invite_link nowIso
          { replies := [successMsg invite_link], sheet := appended.1,
            inviteReq := some req, sheetOpened := true,
            appendMode := some appended.2, state := conversationEnd }

/-- A concrete configuration for instantiating theorems. -/
def cfg0 : Config :=
  { BOT_TOKEN := "123456:token", GROUP_CHAT_ID := "-100123", SHEET_ID := "sid",
    GOOGLE_SERVICE_ACCOUNT_JSON := "service-account.json",
    INVITE_EXPIRE_MINUTES := 10 }

/-- A concrete configuration with the bot token absent. -/
def cfgNoToken : Config :=
  { BOT_TOKEN := "", GROUP_CHAT_ID := "-100123", SHEET_ID := "sid",
    GOOGLE_SERVICE_ACCOUNT_JSON := "service-account.json",
    INVITE_EXPIRE_MINUTES := 10 }

/-- A concrete Telegram user. -/
def u0 : TgUser :=
  { id := 42, username := some "alice", first_name := some "Alice",
    last_name := none }

/-- A sheet holding the header and one prior submission of user 42. -/
def s0 : Sheet :=
  [HEADER,
   ["2026-01-01T00:00:00+00:00", "42", "alice", "Alice", "a@b.com",
    "https://t.me/+abc"]]

/-- A freshly initialized sheet: header only, no submissions. -/
def s1 : Sheet := [HEADER]

/-- A concrete invite-creation failure. -/
def err0 : PyErr := { typeName := "BadRequest", msg := "Chat not found" }

/-- The invite request produced by the concrete run used to instantiate the
invite-parameter theorem. -/
def c6req : InviteRequest :=
  { chat_id := some (-100123), member_limit := 1, expire_date := 1100,
    creates_join_request := false, name := "patreon_gate_42_77" }

/-! ## Helper lemmas -/

/-- Opening an already-initialized sheet (nonempty first row) changes
nothing. -/
theorem get_ws_of_initialized (s : Sheet) (h : row_values s 1 ≠ []) :
    get_ws s = s := by
  simp [get_ws, h]

/-- `row_values · 1` is the first row. -/
theorem row_values_one_eq_headD (s : Sheet) : row_values s 1 = s.headD [] := by
  cases s <;> rfl

/-- After one `get_ws` from a reachable sheet state (empty, or with a
nonempty first row) the first row is nonempty. -/
theorem get_ws_first_row_ne (s : Sheet) (h : s = [] ∨ row_values s 1 ≠ []) :
    row_values (get_ws s) 1 ≠ [] := by
  rcases h with h | h
  · subst h; decide
  · rw [get_ws_of_initialized s h]; exact h

/-! ## Claims -/

/-- Claim C5: the dedup check resolves the column to read by looking up
`"telegram_user_id"` in the header row, falls back to the fixed positional
column 2 when that name is absent, and in either case tests membership of
the id of the current user rendered as a string in the set of the values of that column
 excluding the header row. -/
theorem C5_dedup_check_refines_spec (ws : Sheet) (uid : Nat) :
    user_already_submitted ws uid = dedupSpec ws uid := by
  unfold user_already_submitted dedupSpec dedupColumnIndex
  dsimp only
  rw [row_values_one_eq_headD]
  cases hfi : (ws.headD []).findIdx? (fun h => h = "telegram_user_id") <;>
    simp [col_values, List.elem_eq_mem]

/-- Claim C7: header auto-creation is idempotent — `get_ws` writes the fixed
6-column header exactly when the first row is empty, leaves an initialized
sheet unchanged, and iterating it from any reachable state (empty sheet, or
nonempty first row) any number of further times changes nothing, so two
header rows are never produced. -/
theorem C7_header_creation_idempotent :
    get_ws ([] : Sheet) = [HEADER] ∧
    (∀ s : Sheet, row_values s 1 = [] → get_ws s = s ++ [HEADER]) ∧
    (∀ s : Sheet, row_values s 1 ≠ [] → get_ws s = s) ∧
    (∀ (n : Nat) (s : Sheet), s = [] ∨ row_values s 1 ≠ [] →
      get_ws^[n] (get_ws s) = get_ws s) := by
  refine ⟨rfl, ?_, get_ws_of_initialized, ?_⟩
  · intro s h
    simp [get_ws, h]
  · intro n
    induction n with
    | zero => intro s _; rfl
    | succ n ih =>
      intro s h
      rw [Function.iterate_succ_apply,
        get_ws_of_initialized (get_ws s) (get_ws_first_row_ne s h), ih s h]

/-- Witness for C7 at concrete inputs: three further calls after the first
one on an initially empty sheet change nothing. -/
theorem C7_witness :
    get_ws^[3] (get_ws ([] : Sheet)) = get_ws ([] : Sheet) :=
  C7_header_creation_idempotent.2.2.2 3 [] (Or.inl rfl)

/-- Claim C8: if the bot token, target group identifier, or spreadsheet
identifier is absent (empty), startup produces an error naming a missing
variable that is indeed empty, and the process does not run (the startup
check does not return `ok`). -/
theorem C8_missing_required_config_fails_startup (c : Config)
    (h : c.BOT_TOKEN = "" ∨ c.GROUP_CHAT_ID = "" ∨ c.SHEET_ID = "") :
    (∃ n : String, mainEnvCheck c = Except.error ("Missing env var: " ++ n) ∧
      ((n = "BOT_TOKEN" ∧ c.BOT_TOKEN = "") ∨
       (n = "GROUP_CHAT_ID" ∧ c.GROUP_CHAT_ID = "") ∨
       (n = "SHEET_ID" ∧ c.SHEET_ID = ""))) ∧
    mainEnvCheck c ≠ Except.ok () := by
  by_cases h1 : c.BOT_TOKEN = ""
  · constructor
    · exact ⟨"BOT_TOKEN", by simp [mainEnvCheck, must_env, h1],
        Or.inl ⟨rfl, h1⟩⟩
    · simp [mainEnvCheck, must_env, h1]
  · by_cases h2 : c.GROUP_CHAT_ID = ""
    · constructor
      · exact ⟨"GROUP_CHAT_ID", by simp [mainEnvCheck, must_env, h1, h2],
          Or.inr (Or.inl ⟨rfl, h2⟩)⟩
      · simp [mainEnvCheck, must_env, h1, h2]
    · have h3 : c.SHEET_ID = "" := by tauto
      constructor
      · exact ⟨"SHEET_ID", by simp [mainEnvCheck, must_env, h1, h2, h3],
          Or.inr (Or.inr ⟨rfl, h3⟩)⟩
      · simp [mainEnvCheck, must_env, h1, h2, h3]

/-- Witness for C8 at a concrete configuration missing the bot token. -/
theorem C8_witness :
    (∃ n : String,
      mainEnvCheck cfgNoToken = Except.error ("Missing env var: " ++ n) ∧
      ((n = "BOT_TOKEN" ∧ cfgNoToken.BOT_TOKEN = "") ∨
       (n = "GROUP_CHAT_ID" ∧ cfgNoToken.GROUP_CHAT_ID = "") ∨
       (n = "SHEET_ID" ∧ cfgNoToken.SHEET_ID = ""))) ∧
    mainEnvCheck cfgNoToken ≠ Except.ok () :=
  C8_missing_required_config_fails_startup cfgNoToken (Or.inl rfl)

/-- Claim C1: when the submitted (stripped) text is a valid email, the sheet
has a header row, and the id of the user as a string already appears in the dedup
column, the admission procedure replies with the rejection message naming
that only one submission is allowed, ends the conversation, issues no
invite, and appends no new row (the sheet is returned unchanged). -/
theorem C1_duplicate_submission_rejected (cfg : Config) (t : Option String)
    (user : TgUser) (s : Sheet) (nowEpoch timeTime : Nat) (nowIso : String)
    (inv : Except PyErr String)
    (hmatch : EMAIL_RE_match (pyStrip (t.getD "")) = true)
    (hinit : row_values s 1 ≠ [])
    (hdup : user_already_submitted s user.id = true) :
    handle_email cfg "private" t user s nowEpoch timeTime nowIso inv =
      { replies := [alreadySubmittedMsg], sheet := s, inviteReq := none,
        sheetOpened := true, appendMode := none, state := conversationEnd } := by
  have hws : get_ws s = s := get_ws_of_initialized s hinit
  simp [handle_email, hmatch, hws, hdup]

/-- Witness for C1: user 42 already recorded in `s0` is rejected with no
state change. -/
theorem C1_witness :
    handle_email cfg0 "private" (some "a@b.com") u0 s0 500 77 "ts"
      (Except.ok "LINK") =
      { replies := [alreadySubmittedMsg], sheet := s0, inviteReq := none,
        sheetOpened := true, appendMode := none, state := conversationEnd } :=
  C1_duplicate_submission_rejected cfg0 (some "a@b.com") u0 s0 500 77 "ts"
    (Except.ok "LINK") (by decide) (by decide) (by decide)

/-- Claim C2 (amended): when the invite call raises, no submission row is
appended — the resulting table equals `get_ws` of the input table, which is
the input table itself whenever the table already had a first row (the only
possible difference being the auto-created header on a fresh table); the
reply is the diagnostic naming the likely causes plus the raw error, and
the conversation ends. -/
theorem C2_invite_failure_appends_nothing (cfg : Config) (t : Option String)
    (user : TgUser) (s : Sheet) (nowEpoch timeTime : Nat) (nowIso : String)
    (e : PyErr)
    (hmatch : EMAIL_RE_match (pyStrip (t.getD "")) = true)
    (hnodup : user_already_submitted (get_ws s) user.id = false) :
    handle_email cfg "private" t user s nowEpoch timeTime nowIso
        (Except.error e) =
      { replies := [inviteFailPrefix ++ e.typeName ++ ": " ++ e.msg],
        sheet := get_ws s,
        inviteReq := some (mkInviteRequest cfg user
          (nowEpoch + 60 * cfg.INVITE_EXPIRE_MINUTES) timeTime),
        sheetOpened := true, appendMode := none,
        state := conversationEnd } ∧
    (row_values s 1 ≠ [] → get_ws s = s) := by
  constructor
  · simp [handle_email, hmatch, hnodup, inviteFailMsg]
  · exact get_ws_of_initialized s

set_option maxRecDepth 4096 in
/-- Counterexample to C2 as stated: on a run from an uninitialized (empty)
table in which invite issuance fails, the table state is not unchanged — the
open step appends the header row before the invite call, so a row is
appended during the run even though the invite failed. -/
theorem C2_counterexample_fresh_table_changes :
    (handle_email cfg0 "private" (some "a@b.com") u0 ([] : Sheet) 500 77 "ts"
      (Except.error err0)).sheet = [HEADER] ∧
    (handle_email cfg0 "private" (some "a@b.com") u0 ([] : Sheet) 500 77 "ts"
      (Except.error err0)).sheet ≠ ([] : Sheet) ∧
    (handle_email cfg0 "private" (some "a@b.com") u0 ([] : Sheet) 500 77 "ts"
      (Except.error err0)).replies = [inviteFailMsg err0] := by
  refine ⟨by decide, by decide, by decide⟩

/-- Witness for C2 (amended) at a concrete initialized table. -/
theorem C2_witness :
    (handle_email cfg0 "private" (some "b@c.org") u0 s1 500 77 "ts"
        (Except.error err0) =
      { replies := [inviteFailPrefix ++ err0.typeName ++ ": " ++ err0.msg],
        sheet := get_ws s1,
        inviteReq := some (mkInviteRequest cfg0 u0
          (500 + 60 * cfg0.INVITE_EXPIRE_MINUTES) 77),
        sheetOpened := true, appendMode := none,
        state := conversationEnd }) ∧
    (row_values s1 1 ≠ [] → get_ws s1 = s1) :=
  C2_invite_failure_appends_nothing cfg0 (some "b@c.org") u0 s1 500 77 "ts"
    err0 (by decide) (by decide)

/-- Claim C3: on a private-chat run with a valid (stripped) email, a user id
not already recorded, and a successful invite call, exactly one submission
row is appended to the opened table — holding the append-time timestamp, the
id as a string, the username or the empty string, the space-joined full
name, the submitted email, and the invite link — with `value_input_option`
`RAW`, and the reply is the success message containing the link; the opened
table is the input table whenever it already had a first row. -/
theorem C3_successful_admission_appends_one_row (cfg : Config)
    (t : Option String) (user : TgUser) (s : Sheet) (nowEpoch timeTime : Nat)
    (nowIso link : String)
    (hmatch : EMAIL_RE_match (pyStrip (t.getD "")) = true)
    (hnodup : user_already_submitted (get_ws s) user.id = false) :
    handle_email cfg "private" t user s nowEpoch timeTime nowIso
        (Except.ok link) =
      { replies := [successPrefix ++ link],
        sheet := get_ws s ++
          [[nowIso, toString user.id, user.username.getD "", full_name user,
            pyStrip (t.getD ""), link]],
        inviteReq := some (mkInviteRequest cfg user
          (nowEpoch + 60 * cfg.INVITE_EXPIRE_MINUTES) timeTime),
        sheetOpened := true, appendMode := some ValueInputOption.RAW,
        state := conversationEnd } ∧
    (row_values s 1 ≠ [] → get_ws s = s) := by
  constructor
  · simp [handle_email, hmatch, hnodup, append_submission, submission_row,
      successMsg]
  · exact get_ws_of_initialized s

/-- Witness for C3: a fresh user on an initialized sheet gets exactly one
appended row and the link in the reply. -/
theorem C3_witness :
    (handle_email cfg0 "private" (some "b@c.org") u0 s1 500 77 "ts"
        (Except.ok "LINK") =
      { replies := [successPrefix ++ "LINK"],
        sheet := get_ws s1 ++
          [["ts", toString u0.id, u0.username.getD "", full_name u0,
            pyStrip ((some "b@c.org").getD ""), "LINK"]],
        inviteReq := some (mkInviteRequest cfg0 u0
          (500 + 60 * cfg0.INVITE_EXPIRE_MINUTES) 77),
        sheetOpened := true, appendMode := some ValueInputOption.RAW,
        state := conversationEnd }) ∧
    (row_values s1 1 ≠ [] → get_ws s1 = s1) :=
  C3_successful_admission_appends_one_row cfg0 (some "b@c.org") u0 s1 500 77
    "ts" "LINK" (by decide) (by decide)

/-- Claim C4 (amended): for every message whose *stripped* text does not
match the email pattern, the workflow never proceeds past `AWAIT_EMAIL`: it
replies with the corrective prompt and returns `ASK_EMAIL`, with no
spreadsheet access, no invite, and no row append. -/
theorem C4_invalid_email_stays_in_await_email (cfg : Config)
    (t : Option String) (user : TgUser) (s : Sheet) (nowEpoch timeTime : Nat)
    (nowIso : String) (inv : Except PyErr String)
    (hmatch : EMAIL_RE_match (pyStrip (t.getD "")) = false) :
    handle_email cfg "private" t user s nowEpoch timeTime nowIso inv =
      { replies := [invalidEmailMsg], sheet := s, inviteReq := none,
        sheetOpened := false, appendMode := none, state := ASK_EMAIL } := by
  simp [handle_email, hmatch]

/-- Counterexample to C4 as stated: the raw text `" a@b.com "` does not
match the email pattern, yet the workflow strips it before validating and
therefore proceeds past `AWAIT_EMAIL` — the spreadsheet is opened, a row is
appended, and the returned state is not `ASK_EMAIL`. -/
theorem C4_counterexample_padded_email_proceeds :
    EMAIL_RE_match " a@b.com " = false ∧
    (handle_email cfg0 "private" (some " a@b.com ") u0 s1 500 77 "ts"
      (Except.ok "LINK")).state ≠ ASK_EMAIL ∧
    (handle_email cfg0 "private" (some " a@b.com ") u0 s1 500 77 "ts"
      (Except.ok "LINK")).sheetOpened = true ∧
    (handle_email cfg0 "private" (some " a@b.com ") u0 s1 500 77 "ts"
      (Except.ok "LINK")).sheet ≠ s1 := by
  refine ⟨by decide, by decide, by decide, by decide⟩

/-- Witness for C4 (amended) at the concrete invalid submission `"nope"`. -/
theorem C4_witness :
    handle_email cfg0 "private" (some "nope") u0 s1 500 77 "ts"
      (Except.ok "LINK") =
      { replies := [invalidEmailMsg], sheet := s1, inviteReq := none,
        sheetOpened := false, appendMode := none, state := ASK_EMAIL } :=
  C4_invalid_email_stays_in_await_email cfg0 (some "nope") u0 s1 500 77 "ts"
    (Except.ok "LINK") (by decide)

/-- Claim C6: every invite request the workflow issues carries
`member_limit` exactly 1, an expiry equal to the floored current epoch
second plus sixty times the configured window in minutes, direct join
(`creates_join_request = false`), and a name derived from the user id and
the current `int(time.time())` reading. -/
theorem C6_invite_request_parameters (cfg : Config) (chatType : String)
    (t : Option String) (user : TgUser) (s : Sheet) (nowEpoch timeTime : Nat)
    (nowIso : String) (inv : Except PyErr String) (req : InviteRequest)
    (h : (handle_email cfg chatType t user s nowEpoch timeTime nowIso
      inv).inviteReq = some req) :
    req.member_limit = 1 ∧
    req.expire_date = nowEpoch + 60 * cfg.INVITE_EXPIRE_MINUTES ∧
    req.creates_join_request = false ∧
    req.name = "patreon_gate_" ++ toString user.id ++ "_" ++
      toString timeTime := by
  by_cases h1 : chatType ≠ "private"
  · simp [handle_email, h1] at h
  · by_cases h2 : EMAIL_RE_match (pyStrip (t.getD "")) = true
    · by_cases h3 : user_already_submitted (get_ws s) user.id = true
      · simp [handle_email, h1, h2, h3] at h
      · cases inv with
        | error e =>
          simp [handle_email, h1, h2, h3] at h
          subst h
          exact ⟨rfl, rfl, rfl, rfl⟩
        | ok link =>
          simp [handle_email, h1, h2, h3] at h
          subst h
          exact ⟨rfl, rfl, rfl, rfl⟩
    · simp [handle_email, h1, h2] at h

/-- Witness for C6: the request issued by a concrete successful run. -/
theorem C6_witness :
    (handle_email cfg0 "private" (some "b@c.org") u0 s1 500 77 "ts"
      (Except.ok "LINK")).inviteReq = some c6req ∧
    c6req.member_limit = 1 ∧
    c6req.expire_date = 500 + 60 * cfg0.INVITE_EXPIRE_MINUTES ∧
    c6req.creates_join_request = false ∧
    c6req.name = "patreon_gate_" ++ toString u0.id ++ "_" ++ toString 77 :=
  ⟨by decide,
    C6_invite_request_parameters cfg0 "private" (some "b@c.org") u0 s1 500 77
      "ts" (Except.ok "LINK") c6req (by decide)⟩

/-- Claim C9: a non-command text message handled while the chat is not a
private one-to-one chat ends the conversation immediately with no reply, no
validation outcome, and no side effects: no spreadsheet access, no invite
request, no row append. -/
theorem C9_non_private_chat_ends_silently (cfg : Config) (chatType : String)
    (t : Option String) (user : TgUser) (s : Sheet) (nowEpoch timeTime : Nat)
    (nowIso : String) (inv : Except PyErr String)
    (h : chatType ≠ "private") :
    handle_email cfg chatType t user s nowEpoch timeTime nowIso inv =
      { replies := [], sheet := s, inviteReq := none, sheetOpened := false,
        appendMode := none, state := conversationEnd } := by
  simp [handle_email, h]

/-- Witness for C9 at a concrete group chat. -/
theorem C9_witness :
    handle_email cfg0 "group" (some "a@b.com") u0 s0 500 77 "ts"
      (Except.ok "LINK") =
      { replies := [], sheet := s0, inviteReq := none, sheetOpened := false,
        appendMode := none, state := conversationEnd } :=
  C9_non_private_chat_ends_silently cfg0 "group" (some "a@b.com") u0 s0 500
    77 "ts" (Except.ok "LINK") (by decide)

/-- Claim C10: the message text is stripped before validation and before
recording — whenever the stripped form matches the email pattern (and the
user is new and the invite succeeds) the submission is accepted, and the
`patreon_email` cell of the appended row is the stripped form of the raw
message text. -/
theorem C10_email_stripped_before_validation_and_record (cfg : Config)
    (t : Option String) (user : TgUser) (s : Sheet) (nowEpoch timeTime : Nat)
    (nowIso link : String)
    (hmatch : EMAIL_RE_match (pyStrip (t.getD "")) = true)
    (hnodup : user_already_submitted (get_ws s) user.id = false) :
    (handle_email cfg "private" t user s nowEpoch timeTime nowIso
      (Except.ok link)).state = conversationEnd ∧
    (handle_email cfg "private" t user s nowEpoch timeTime nowIso
        (Except.ok link)).sheet =
      get_ws s ++ [submission_row user (pyStrip (t.getD "")) link nowIso] ∧
    (submission_row user (pyStrip (t.getD "")) link nowIso).getD 4 "" =
      pyStrip (t.getD "") := by
  refine ⟨?_, ?_, rfl⟩ <;>
    simp [handle_email, hmatch, hnodup, append_submission]

/-- Witness for C10: the padded raw text `" user@example.com "` is accepted
and the stored `patreon_email` is the stripped `"user@example.com"`, not the
raw message text. -/
theorem C10_witness :
    ((handle_email cfg0 "private" (some " user@example.com ") u0 s1 500 77
      "ts" (Except.ok "LINK")).state = conversationEnd ∧
    (handle_email cfg0 "private" (some " user@example.com ") u0 s1 500 77
        "ts" (Except.ok "LINK")).sheet =
      get_ws s1 ++
        [submission_row u0 (pyStrip ((some " user@example.com ").getD ""))
          "LINK" "ts"] ∧
    (submission_row u0 (pyStrip ((some " user@example.com ").getD "")) "LINK"
        "ts").getD 4 "" =
      pyStrip ((some " user@example.com ").getD "")) ∧
    pyStrip " user@example.com " = "user@example.com" ∧
    " user@example.com " ≠ "user@example.com" :=
  ⟨C10_email_stripped_before_validation_and_record cfg0
      (some " user@example.com ") u0 s1 500 77 "ts" "LINK" (by decide)
      (by decide),
    by decide, by decide⟩

end PatreonGate
